import Mathlib

/-
  Verification of the deadmansnitch liveness monitor.

  Shallow embedding of the core components:
    app/domain/watchdog_state.py   (WatchdogState entity)
    app/services/watchdog_service.py (WatchdogService: process_watchdog_alert,
                                      get_health_status, _save_state_with_lock)
    app/services/watchdog_monitor.py (one post-grace iteration of _run_monitor)
    app/persistence/file_repository.py (FileWatchdogRepository.load/save)
    app/notifications/notifier.py  (Notifier.notify_all)

  Timestamps (Python float seconds since the epoch) are modelled as integers
  (the claims are order-theoretic, so sub-second fractions are irrelevant);
  counters as naturals.  The spec consistently renames the source vocabulary
  "watchdog/alert" to "heartbeat" (e.g. `last_watchdog_time` appears in the
  spec as `last_heartbeat_time`, the status literal "waiting_for_first_alert"
  as "waiting_for_first_heartbeat"); the embedding keeps the source names.
-/

namespace Watchdog

/-- The "labels" mapping of an alert: only the key "alertname" is ever read
by the code (`alert.get("labels", {}).get("alertname", ...)`). -/
structure Labels where
  alertname : Option String
deriving Repr, DecidableEq

/-- The annotation mapping of an alert: only "summary" and "description" are
read by `WatchdogState.record_watchdog_alert`. -/
structure Annots where
  summary : Option String
  description : Option String
deriving Repr, DecidableEq

/-- An alert-like sub-record: the fields the code reads from one element of
the "alerts" list (or from the payload itself in the direct form). -/
structure Alert where
  labels : Option Labels
  status : Option String
  annots : Option Annots
deriving Repr, DecidableEq

/-- The value found under the "alerts" key of a payload: absent, present but
not a Python list, or a list of alert-like records. -/
inductive AlertsField
  | absent
  | notList
  | list (l : List Alert)
deriving Repr, DecidableEq

/-- A mapping-shaped (dict) payload: the "alerts" key, the "labels" key, and
the payload itself viewed as a direct-form alert (status / annotation keys). -/
structure DictPayload where
  alerts : AlertsField
  labels : Option Labels
  status : Option String
  annots : Option Annots
deriving Repr, DecidableEq

/-- An inbound submission: `None`, a non-mapping value, or a dict. -/
inductive Payload
  | null
  | notDict
  | dict (d : DictPayload)
deriving Repr, DecidableEq

/-- The detail mapping stored by `WatchdogState.record_watchdog_alert`. -/
structure WatchdogDetails where
  alertname : String
  status : String
  summary : String
  description : String
  received_at : String
deriving Repr, DecidableEq

/-- The domain entity `WatchdogState` (app/domain/watchdog_state.py).
`last_watchdog_details` is `none` while the Python dict is empty. -/
structure WatchdogState where
  last_watchdog_time : ℤ
  last_watchdog_details : Option WatchdogDetails
  status : String
  total_received : Nat
  invalid_received : Nat
  last_status_notification : ℤ
  last_alert_notification : ℤ
deriving Repr, DecidableEq

/-- `WatchdogState.__init__`: the freshly constructed entity. -/
def WatchdogState.init : WatchdogState :=
  { last_watchdog_time := 0
    last_watchdog_details := none
    status := "initializing"
    total_received := 0
    invalid_received := 0
    last_status_notification := 0
    last_alert_notification := 0 }

/-- `WatchdogState.format_timestamp`: "never" for 0; a nonzero timestamp is
rendered through strftime, abstracted here as an injective rendering of the
rational value (the claims never inspect the text of a nonzero rendering). -/
def formatTimestamp (t : ℤ) : String :=
  if t = 0 then "never" else "at " ++ toString t

/-- The serialized dictionary form of the state: every key optional, so that
`from_dict` can default missing keys (forward/backward compatible schema). -/
structure StateDict where
  last_watchdog_time : Option ℤ
  last_watchdog_details : Option (Option WatchdogDetails)
  status : Option String
  total_received : Option Nat
  invalid_received : Option Nat
  last_status_notification : Option ℤ
  last_alert_notification : Option ℤ
deriving Repr, DecidableEq

/-- `WatchdogState.to_dict`: serialize every field. -/
def WatchdogState.to_dict (s : WatchdogState) : StateDict :=
  { last_watchdog_time := some s.last_watchdog_time
    last_watchdog_details := some s.last_watchdog_details
    status := some s.status
    total_received := some s.total_received
    invalid_received := some s.invalid_received
    last_status_notification := some s.last_status_notification
    last_alert_notification := some s.last_alert_notification }

/-- `WatchdogState.from_dict`: `none` models a falsy `data` (the early
return); otherwise each field defaults to the current in-memory value. -/
def WatchdogState.from_dict (s : WatchdogState) : Option StateDict → WatchdogState
  | none => s
  | some d =>
    { last_watchdog_time := d.last_watchdog_time.getD s.last_watchdog_time
      last_watchdog_details := d.last_watchdog_details.getD s.last_watchdog_details
      status := d.status.getD s.status
      total_received := d.total_received.getD s.total_received
      invalid_received := d.invalid_received.getD s.invalid_received
      last_status_notification := d.last_status_notification.getD s.last_status_notification
      last_alert_notification := d.last_alert_notification.getD s.last_alert_notification }

/-- Reading `alert.get("labels", {}).get("alertname", default)`. -/
def Alert.labelAlertname (a : Alert) (default : String) : String :=
  ((a.labels.getD { alertname := none }).alertname).getD default

/-- `WatchdogState.record_watchdog_alert`: stamp the receipt time, store the
details, set status "ok". `now` is the `time.time()` call inside the method. -/
def WatchdogState.record_watchdog_alert (s : WatchdogState) (alert_data : Alert)
    (now : ℤ) : WatchdogState :=
  { s with
    last_watchdog_time := now
    last_watchdog_details := some
      { alertname := alert_data.labelAlertname "unknown"
        status := alert_data.status.getD "unknown"
        summary := ((alert_data.annots.getD { summary := none, description := none }).summary).getD
          "No summary provided"
        description := ((alert_data.annots.getD { summary := none, description := none }).description).getD
          "No description provided"
        received_at := formatTimestamp now }
    status := "ok" }

/-- `WatchdogState.record_invalid_alert`: bump BOTH counters by one. -/
def WatchdogState.record_invalid_alert (s : WatchdogState) : WatchdogState :=
  { s with invalid_received := s.invalid_received + 1
           total_received := s.total_received + 1 }

/-- `WatchdogState.update_status_notification`. -/
def WatchdogState.update_status_notification (s : WatchdogState) (now : ℤ) : WatchdogState :=
  { s with last_status_notification := now }

/-- `WatchdogState.update_alert_notification`. -/
def WatchdogState.update_alert_notification (s : WatchdogState) (now : ℤ) : WatchdogState :=
  { s with last_alert_notification := now }

/-- `WatchdogState.set_alert_status`. -/
def WatchdogState.set_alert_status (s : WatchdogState) : WatchdogState :=
  { s with status := "alert" }

/-- `WatchdogState.time_since_last_watchdog`. -/
def WatchdogState.time_since_last_watchdog (s : WatchdogState) (now : ℤ) : ℤ :=
  now - s.last_watchdog_time

/-- The configuration values the core consumes (app/config.py). -/
structure Config where
  watchdog_timeout : ℤ
  expected_alertname : String
  alert_resend_interval : ℤ
deriving Repr, DecidableEq

/-- `WatchdogService._validate_watchdog_alert`: a dict with a non-empty list
under "alerts", or (elif) a dict with a "labels" key; anything else invalid. -/
def validate_watchdog_alert : Payload → Bool
  | .dict d =>
    match d.alerts with
    | .absent => d.labels.isSome
    | .notList => false
    | .list l => decide (0 < l.length)
  | _ => false

/-- The alert the service inspects:
`payload.get("alerts", [{}])[0] if "alerts" in payload else payload`.
(The `.notList` and empty-list arms are unreachable after validation.) -/
def DictPayload.chosenAlert (d : DictPayload) : Alert :=
  match d.alerts with
  | .list l => l.headD { labels := none, status := none, annots := none }
  | .notList => { labels := none, status := none, annots := none }
  | .absent => { labels := d.labels, status := d.status, annots := d.annots }

/-- An outbound notification, tagged by which Notifier helper produced it. -/
inductive Notification
  | alertMsg (time_since_last : ℤ) (last_received : String)
  | repeatedAlertMsg (time_since_last : ℤ) (last_received : String)
  | recoveryMsg
  | statusUpdateMsg (last_received : String)
deriving Repr, DecidableEq

/-- Result of `WatchdogService.process_watchdog_alert`: the updated state,
the (accepted, message) pair returned to the route, and the notifications
dispatched during the call. -/
structure ProcessResult where
  state : WatchdogState
  accepted : Bool
  message : String
  sent : List Notification
deriving Repr, DecidableEq

/-- `WatchdogService.process_watchdog_alert` (app/services/watchdog_service.py).
`None` and non-dict payloads are rejected before any state is touched; for a
dict the service first bumps `total_received`, then on validation failure or
name mismatch calls `record_invalid_alert` (which bumps both counters again),
and on success records the alert and sends a recovery notification exactly
when the prior status was "alert". `now` is the wall clock during the call;
the repository save calls do not change the state and are elided here. -/
def process_watchdog_alert (cfg : Config) (s : WatchdogState) (now : ℤ)
    (payload : Payload) : ProcessResult :=
  match payload with
  | .null => { state := s, accepted := false, message := "Invalid payload: None", sent := [] }
  | .notDict => { state := s, accepted := false, message := "Invalid payload: Not a dictionary", sent := [] }
  | .dict d =>
    let s1 : WatchdogState := { s with total_received := s.total_received + 1 }
    if validate_watchdog_alert (.dict d) = false then
      { state := s1.record_invalid_alert, accepted := false
        message := "Invalid watchdog alert format", sent := [] }
    else
      let alert := d.chosenAlert
      let alertname := alert.labelAlertname ""
      if alertname ≠ cfg.expected_alertname then
        { state := s1.record_invalid_alert, accepted := false
          message := "Expected " ++ cfg.expected_alertname ++ ", got " ++ alertname
          sent := [] }
      else
        let s2 := s1.record_watchdog_alert alert now
        { state := s2, accepted := true
          message := "Watchdog alert received and processed"
          sent := if s1.status = "alert" then [Notification.recoveryMsg] else [] }

/-- A submission the service accepts: dict shaped, passes validation, and the
chosen alert's name equals the configured expected name. -/
def isValidHeartbeat (cfg : Config) : Payload → Bool
  | .dict d =>
    validate_watchdog_alert (.dict d) &&
      (d.chosenAlert.labelAlertname "" == cfg.expected_alertname)
  | _ => false

/-- Fold of `process_watchdog_alert` over a sequence of (time, payload)
submissions. -/
def processSeq (cfg : Config) (s : WatchdogState) : List (ℤ × Payload) → WatchdogState
  | [] => s
  | x :: rest => processSeq cfg (process_watchdog_alert cfg s x.1 x.2).state rest

/-- The snapshot returned by `WatchdogService.get_health_status`. -/
structure HealthStatus where
  status : String
  is_healthy : Bool
  last_ping : ℤ
  last_ping_formatted : String
  time_since_last_ping : ℤ
  timeout : ℤ
deriving Repr, DecidableEq

/-- `WatchdogService.get_health_status`: if the time since the last ping
exceeds the timeout and the status is not already "alert", flip the status to
"alert" and persist; then return the snapshot built from the (possibly
updated) state. Note the code has no startup-phase guard here. -/
def get_health_status (cfg : Config) (s : WatchdogState) (now : ℤ) :
    WatchdogState × HealthStatus :=
  let time_since_last := s.time_since_last_watchdog now
  let s1 := if time_since_last > cfg.watchdog_timeout ∧ s.status ≠ "alert"
    then s.set_alert_status else s
  (s1,
   { status := s1.status
     is_healthy := s1.status == "ok"
     last_ping := s1.last_watchdog_time
     last_ping_formatted := formatTimestamp s1.last_watchdog_time
     time_since_last_ping := s1.time_since_last_watchdog now
     timeout := cfg.watchdog_timeout })

/-- One post-grace-window iteration of `WatchdogMonitor._run_monitor`
(app/services/watchdog_monitor.py, the body after the startup grace skip):
on timeout, either the initial alert (status not yet "alert") or, when the
resend interval has elapsed since the last alert notification, a repeated
alert; otherwise, in "ok" status, a daily status update after 86400 seconds.
Returns the updated state and the notifications dispatched. -/
def monitorIteration (cfg : Config) (s : WatchdogState) (now : ℤ) :
    WatchdogState × List Notification :=
  let time_since_last := now - s.last_watchdog_time
  let time_since_last_notification := now - s.last_status_notification
  let time_since_last_alert := now - s.last_alert_notification
  if time_since_last > cfg.watchdog_timeout then
    if s.status ≠ "alert" then
      (s.set_alert_status.update_alert_notification now,
       [Notification.alertMsg time_since_last (formatTimestamp s.last_watchdog_time)])
    else if time_since_last_alert ≥ cfg.alert_resend_interval then
      (s.update_alert_notification now,
       [Notification.repeatedAlertMsg time_since_last (formatTimestamp s.last_watchdog_time)])
    else (s, [])
  else if s.status = "ok" ∧ time_since_last_notification ≥ 86400 then
    (s.update_status_notification now,
     [Notification.statusUpdateMsg (formatTimestamp s.last_watchdog_time)])
  else (s, [])

/-- Content of a file on disk: zero bytes (a truncating open that has written
nothing yet), or a full serialized state record. -/
inductive Content
  | empty
  | json (d : StateDict)
deriving Repr, DecidableEq

/-- The two paths the persistence layer touches: the durable record
(`watchdog_state.json`) and its temporary sibling (`.tmp`). `none` means the
file does not exist. -/
structure FS where
  main : Option Content
  tmp : Option Content
deriving Repr, DecidableEq

/-- One atomic filesystem effect performed by the persistence code. Crash
points are the gaps between steps. -/
inductive FileStep
  | createTmpTruncate
  | writeTmpJson (d : StateDict)
  | replaceMain
  | openMainTruncate
deriving Repr, DecidableEq

/-- Effect of one step on the filesystem:
`createTmpTruncate` is `open(tmp_filepath, "w")`; `writeTmpJson` is
`json.dump` + `flush` + `fsync` completing the temporary record;
`replaceMain` is `os.replace(tmp_filepath, filepath)`; `openMainTruncate` is
the `open(filepath, "w")` performed by
`WatchdogService._save_state_with_lock` to take the flock, which truncates
the durable record in place. -/
def FileStep.apply (fs : FS) : FileStep → FS
  | .createTmpTruncate => { fs with tmp := some Content.empty }
  | .writeTmpJson d => { fs with tmp := some (Content.json d) }
  | .replaceMain => { main := fs.tmp, tmp := none }
  | .openMainTruncate => { fs with main := some Content.empty }

/-- Run a sequence of filesystem steps. -/
def runSteps (fs : FS) : List FileStep → FS
  | [] => fs
  | st :: rest => runSteps (st.apply fs) rest

/-- The steps of `FileWatchdogRepository.save`: write the full serialized
state to the temporary file, force it to disk, atomically rename over the
record. -/
def saveSteps (s : WatchdogState) : List FileStep :=
  [FileStep.createTmpTruncate, FileStep.writeTmpJson s.to_dict, FileStep.replaceMain]

/-- The steps of `WatchdogService._save_state_with_lock`: first the locking
`open(filepath, "w")` — which truncates the durable record — then the
repository save. -/
def lockedSaveSteps (s : WatchdogState) : List FileStep :=
  FileStep.openMainTruncate :: saveSteps s

/-- `FileWatchdogRepository.save` as a filesystem transformer. -/
def repositorySave (fs : FS) (s : WatchdogState) : FS :=
  runSteps fs (saveSteps s)

/-- The fallback state built by `FileWatchdogRepository.load` when the record
exists but cannot be parsed: the fresh entity with the three timestamps
explicitly zeroed. -/
def corruptFallback : WatchdogState :=
  { WatchdogState.init with
    last_watchdog_time := 0
    last_status_notification := 0
    last_alert_notification := 0 }

/-- `FileWatchdogRepository.load`: a total function — every failure path is
caught. No record: synthesize a fresh state stamped `now` with status
"waiting_for_first_alert" and persist it immediately. Unparsable record:
return the zeroed fallback. Parsable record: populate all fields through
`from_dict`. Returns the state and the filesystem after the call. -/
def load (fs : FS) (now : ℤ) : WatchdogState × FS :=
  match fs.main with
  | some (Content.json d) => (WatchdogState.init.from_dict (some d), fs)
  | some Content.empty => (corruptFallback, fs)
  | none =>
    let state := { WatchdogState.init with
      last_watchdog_time := now
      last_status_notification := now
      status := "waiting_for_first_alert" }
    (state, repositorySave fs state)

/-- Behaviour of one notification provider's `send` for a given message:
returns a boolean, or raises. -/
inductive SendOutcome
  | ok (success : Bool)
  | raises
deriving Repr, DecidableEq

/-- `Notifier.notify_all` (app/notifications/notifier.py): with no providers
return False; otherwise try every provider, swallowing exceptions, and
return True iff some provider returned a truthy result. A total function:
the per-provider try/except means the loop never propagates an exception. -/
def notify_all (providers : List SendOutcome) : Bool :=
  if providers.isEmpty then false
  else
    providers.foldl
      (fun success p =>
        match p with
        | SendOutcome.ok b => success || b
        | SendOutcome.raises => success)
      false

/-- The operations that touch the watchdog state, for the counter
invariants: processing a submission, the health query, one monitor
iteration, and the two notification stamps. -/
inductive Op
  | processAlert (now : ℤ) (p : Payload)
  | healthQuery (now : ℤ)
  | monitorIter (now : ℤ)
  | stampStatus (now : ℤ)
  | stampAlert (now : ℤ)
deriving Repr, DecidableEq

/-- Apply one operation to the state. -/
def Op.apply (cfg : Config) (s : WatchdogState) : Op → WatchdogState
  | .processAlert now p => (process_watchdog_alert cfg s now p).state
  | .healthQuery now => (get_health_status cfg s now).1
  | .monitorIter now => (monitorIteration cfg s now).1
  | .stampStatus now => s.update_status_notification now
  | .stampAlert now => s.update_alert_notification now

/-- Run a sequence of operations from a state. -/
def runOps (cfg : Config) (s : WatchdogState) : List Op → WatchdogState
  | [] => s
  | op :: rest => runOps cfg (op.apply cfg s) rest

/-! Concrete inputs used to instantiate the theorems. -/

/-- A concrete configuration: timeout 60s, expected name "Watchdog",
resend interval 300s. -/
def cfg1 : Config :=
  { watchdog_timeout := 60, expected_alertname := "Watchdog", alert_resend_interval := 300 }

/-- The Alertmanager-style payload of spec scenario E:
a one-element batch whose alert is named "Watchdog". -/
def pValid1 : Payload :=
  Payload.dict
    { alerts := AlertsField.list
        [{ labels := some { alertname := some "Watchdog" }, status := none, annots := none }]
      labels := none, status := none, annots := none }

/-- The payload of spec scenario D: an empty batch. -/
def pEmptyBatch1 : Payload :=
  Payload.dict { alerts := AlertsField.list [], labels := none, status := none, annots := none }

/-- A state in "alert" status with a heartbeat 100s before `now = 1000` and
the last alert notification 400s before it (spec scenario C at resend
interval 300 and timeout 60). -/
def sScenarioC : WatchdogState :=
  { WatchdogState.init with
    status := "alert", last_watchdog_time := 900, last_alert_notification := 600 }

/-- A state still in the startup phase "waiting_for_first_alert" whose last
heartbeat timestamp is 0. -/
def sWaiting1 : WatchdogState :=
  { WatchdogState.init with status := "waiting_for_first_alert" }

/-! Helper lemmas. -/

/-- Unfolding of `isValidHeartbeat` on a dict payload. -/
theorem isValidHeartbeat_dict (cfg : Config) (d : DictPayload) :
    isValidHeartbeat cfg (.dict d) = true ↔
      (validate_watchdog_alert (.dict d) = true ∧
        d.chosenAlert.labelAlertname "" = cfg.expected_alertname) := by
  simp [isValidHeartbeat, Bool.and_eq_true, beq_iff_eq]

/-- Effect of `process_watchdog_alert` on an accepted submission. -/
theorem process_valid_dict (cfg : Config) (s : WatchdogState) (now : ℤ) (d : DictPayload)
    (h1 : validate_watchdog_alert (.dict d) = true)
    (h2 : d.chosenAlert.labelAlertname "" = cfg.expected_alertname) :
    process_watchdog_alert cfg s now (.dict d) =
      { state := WatchdogState.record_watchdog_alert
          { s with total_received := s.total_received + 1 } d.chosenAlert now
        accepted := true
        message := "Watchdog alert received and processed"
        sent := if s.status = "alert" then [Notification.recoveryMsg] else [] } := by
  simp only [process_watchdog_alert, h1, h2]
  simp

/-- Effect of `process_watchdog_alert` on a rejected dict submission. -/
theorem process_invalid_dict (cfg : Config) (s : WatchdogState) (now : ℤ) (d : DictPayload)
    (h : isValidHeartbeat cfg (.dict d) = false) :
    process_watchdog_alert cfg s now (.dict d) =
      { state := WatchdogState.record_invalid_alert
          { s with total_received := s.total_received + 1 }
        accepted := false
        message :=
          if validate_watchdog_alert (.dict d) = false then "Invalid watchdog alert format"
          else "Expected " ++ cfg.expected_alertname ++ ", got " ++
            d.chosenAlert.labelAlertname ""
        sent := [] } := by
  by_cases h1 : validate_watchdog_alert (.dict d) = true
  · have h2 : d.chosenAlert.labelAlertname "" ≠ cfg.expected_alertname := by
      intro h2
      rw [Bool.eq_false_iff] at h
      exact h ((isValidHeartbeat_dict cfg d).mpr ⟨h1, h2⟩)
    simp only [process_watchdog_alert, h1, h2]
    simp [h2]
  · rw [Bool.not_eq_true] at h1
    simp only [process_watchdog_alert, h1]
    simp

/-- Folding `processSeq` over a sequence of accepted submissions:
the total counter grows by the length, and after a non-empty sequence the
status is "ok" and the heartbeat stamp is the time of the last submission. -/
theorem processSeq_valid (cfg : Config) :
    ∀ (subs : List (ℤ × Payload)) (s : WatchdogState),
      (∀ y ∈ subs, isValidHeartbeat cfg y.2 = true) →
      (processSeq cfg s subs).total_received = s.total_received + subs.length ∧
      (processSeq cfg s subs).invalid_received = s.invalid_received ∧
      (∀ x, subs.getLast? = some x →
        (processSeq cfg s subs).status = "ok" ∧
        (processSeq cfg s subs).last_watchdog_time = x.1)
  | [], s, _ => by
    refine ⟨by simp [processSeq], by simp [processSeq], ?_⟩
    intro x hx
    simp at hx
  | (t, p) :: rest, s, hv => by
    obtain ⟨d, rfl⟩ : ∃ d, p = Payload.dict d := by
      have := hv (t, p) (by simp)
      cases p with
      | dict d => exact ⟨d, rfl⟩
      | null => simp [isValidHeartbeat] at this
      | notDict => simp [isValidHeartbeat] at this
    have hval := (isValidHeartbeat_dict cfg d).mp (hv (t, .dict d) (by simp))
    have hstep := process_valid_dict cfg s t d hval.1 hval.2
    have hseq : processSeq cfg s ((t, Payload.dict d) :: rest) =
        processSeq cfg (process_watchdog_alert cfg s t (.dict d)).state rest := rfl
    have hrest := processSeq_valid cfg rest
      (process_watchdog_alert cfg s t (.dict d)).state
      (fun y hy => hv y (by simp [hy]))
    rw [hseq, hstep] at *
    refine ⟨?_, ?_, ?_⟩
    · rw [hrest.1]
      simp [WatchdogState.record_watchdog_alert]
      omega
    · rw [hrest.2.1]
      simp [WatchdogState.record_watchdog_alert]
    · intro x hx
      cases rest with
      | nil =>
        simp at hx
        subst hx
        simp [processSeq, WatchdogState.record_watchdog_alert]
      | cons r rs =>
        have hlast : ((t, Payload.dict d) :: r :: rs).getLast? = (r :: rs).getLast? := by
          simp [List.getLast?_cons_cons]
        rw [hlast] at hx
        exact hrest.2.2 x hx

/-! Claim theorems. -/

/-- C1: for every sequence of valid heartbeats processed from a state with
zero received submissions, `total_received` ends equal to the number of
submissions, the status after the last one is "ok", and
`last_watchdog_time` (spec: `last_heartbeat_time`) equals the processing
time of the last submission; moreover a valid heartbeat dispatches exactly
one recovery notification when the prior status is "alert" and none
otherwise. -/
theorem valid_heartbeat_sequence_spec (cfg : Config) (s : WatchdogState)
    (subs : List (ℤ × Payload)) (x : ℤ × Payload)
    (h0 : s.total_received = 0)
    (hv : ∀ y ∈ subs, isValidHeartbeat cfg y.2 = true)
    (hlast : subs.getLast? = some x) :
    (processSeq cfg s subs).total_received = subs.length ∧
    (processSeq cfg s subs).status = "ok" ∧
    (processSeq cfg s subs).last_watchdog_time = x.1 ∧
    (∀ (s2 : WatchdogState) (now : ℤ) (p : Payload), isValidHeartbeat cfg p = true →
      (process_watchdog_alert cfg s2 now p).sent =
        (if s2.status = "alert" then [Notification.recoveryMsg] else [])) := by
  have h := processSeq_valid cfg subs s hv
  refine ⟨by rw [h.1, h0, Nat.zero_add], (h.2.2 x hlast).1, (h.2.2 x hlast).2, ?_⟩
  intro s2 now p hp
  obtain ⟨d, rfl⟩ : ∃ d, p = Payload.dict d := by
    cases p with
    | dict d => exact ⟨d, rfl⟩
    | null => simp [isValidHeartbeat] at hp
    | notDict => simp [isValidHeartbeat] at hp
  have hval := (isValidHeartbeat_dict cfg d).mp hp
  rw [process_valid_dict cfg s2 now d hval.1 hval.2]

/-- C1 witness: two valid heartbeats at times 10 and 20 from the fresh state
give `total_received = 2`, status "ok", heartbeat stamp 20; and a valid
heartbeat in "alert" status dispatches exactly the recovery notification. -/
theorem valid_heartbeat_sequence_spec_witness :
    (processSeq cfg1 WatchdogState.init [(10, pValid1), (20, pValid1)]).total_received = 2 ∧
    (processSeq cfg1 WatchdogState.init [(10, pValid1), (20, pValid1)]).status = "ok" ∧
    (processSeq cfg1 WatchdogState.init [(10, pValid1), (20, pValid1)]).last_watchdog_time = 20 ∧
    (process_watchdog_alert cfg1 sScenarioC 30 pValid1).sent = [Notification.recoveryMsg] := by
  have h := valid_heartbeat_sequence_spec cfg1 WatchdogState.init
    [(10, pValid1), (20, pValid1)] (20, pValid1) (by decide) (by decide) (by decide)
  refine ⟨h.1, h.2.1, h.2.2.1, ?_⟩
  rw [h.2.2.2 sScenarioC 30 pValid1 (by decide)]
  decide

/-- C2 counterexample: for the empty-batch submission of spec scenario D the
service increments `total_received` by 2 (once before validation and once
again inside `record_invalid_alert`), not by exactly 1; and for a `None`
payload neither counter is incremented at all. -/
theorem invalid_submission_claim_cex :
    WatchdogState.init.total_received = 0 ∧
    WatchdogState.init.invalid_received = 0 ∧
    (process_watchdog_alert cfg1 WatchdogState.init 10 pEmptyBatch1).state.total_received = 2 ∧
    (process_watchdog_alert cfg1 WatchdogState.init 10 pEmptyBatch1).state.invalid_received = 1 ∧
    ¬ ((process_watchdog_alert cfg1 WatchdogState.init 10 pEmptyBatch1).state.total_received =
        WatchdogState.init.total_received + 1) ∧
    (process_watchdog_alert cfg1 WatchdogState.init 10 Payload.null).state.invalid_received = 0 ∧
    ¬ ((process_watchdog_alert cfg1 WatchdogState.init 10 Payload.null).state.invalid_received =
        WatchdogState.init.invalid_received + 1) := by
  decide

/-- C2 amended: a mapping-shaped invalid submission (empty or missing alert
list with no direct labels, or name mismatch) increments `invalid_received`
by exactly 1 and `total_received` by exactly 2, is rejected, and leaves
`status` and `last_watchdog_time` unchanged; a payload that is not a mapping
is rejected with no state change at all. -/
theorem invalid_submission_effect (cfg : Config) (s : WatchdogState) (now : ℤ)
    (d : DictPayload) (h : isValidHeartbeat cfg (.dict d) = false) :
    (process_watchdog_alert cfg s now (.dict d)).state.invalid_received =
      s.invalid_received + 1 ∧
    (process_watchdog_alert cfg s now (.dict d)).state.total_received =
      s.total_received + 2 ∧
    (process_watchdog_alert cfg s now (.dict d)).state.status = s.status ∧
    (process_watchdog_alert cfg s now (.dict d)).state.last_watchdog_time =
      s.last_watchdog_time ∧
    (process_watchdog_alert cfg s now (.dict d)).accepted = false ∧
    (∀ p : Payload, p = Payload.null ∨ p = Payload.notDict →
      (process_watchdog_alert cfg s now p).state = s ∧
      (process_watchdog_alert cfg s now p).accepted = false) := by
  rw [process_invalid_dict cfg s now d h]
  refine ⟨by simp [WatchdogState.record_invalid_alert], ?_, ?_, ?_, rfl, ?_⟩
  · simp [WatchdogState.record_invalid_alert]
  · simp [WatchdogState.record_invalid_alert]
  · simp [WatchdogState.record_invalid_alert]
  · rintro p (rfl | rfl) <;> exact ⟨rfl, rfl⟩

/-- C2 amended witness: the empty-batch submission from the fresh state ends
with `invalid_received = 1`, `total_received = 2`, unchanged status and
heartbeat stamp, and a `None` payload leaves the state untouched. -/
theorem invalid_submission_effect_witness :
    (process_watchdog_alert cfg1 WatchdogState.init 10 pEmptyBatch1).state.invalid_received =
      WatchdogState.init.invalid_received + 1 ∧
    (process_watchdog_alert cfg1 WatchdogState.init 10 pEmptyBatch1).state.total_received =
      WatchdogState.init.total_received + 2 ∧
    (process_watchdog_alert cfg1 WatchdogState.init 10 pEmptyBatch1).state.status =
      WatchdogState.init.status ∧
    (process_watchdog_alert cfg1 WatchdogState.init 10 Payload.null).state =
      WatchdogState.init := by
  obtain ⟨d, hd⟩ : ∃ d, pEmptyBatch1 = Payload.dict d := ⟨_, rfl⟩
  have h := invalid_submission_effect cfg1 WatchdogState.init 10 d (by rw [← hd]; decide)
  rw [hd]
  exact ⟨h.1, h.2.1, h.2.2.1, (h.2.2.2.2.2 Payload.null (Or.inl rfl)).1⟩

/-- C10: a `None` or non-mapping payload is rejected before any state is
touched: the returned result carries the unchanged state, `accepted = false`
with a reason message, and no notification — in particular neither
`total_received` nor `invalid_received` moves on this early-rejection path. -/
theorem non_mapping_early_rejection (cfg : Config) (s : WatchdogState) (now : ℤ) :
    process_watchdog_alert cfg s now Payload.null =
      { state := s, accepted := false, message := "Invalid payload: None", sent := [] } ∧
    process_watchdog_alert cfg s now Payload.notDict =
      { state := s, accepted := false
        message := "Invalid payload: Not a dictionary", sent := [] } :=
  ⟨rfl, rfl⟩

/-- C3: in a post-grace monitor iteration with the timeout exceeded: when the
status is not yet "alert" the iteration sets it to "alert", stamps
`last_alert_notification = now`, and dispatches exactly one initial alert;
when the status is already "alert" nothing is re-stamped or dispatched while
the resend interval has not yet elapsed, and once it has, exactly one
repeated alert is dispatched and `last_alert_notification` is updated. -/
theorem monitor_iteration_alert_policy (cfg : Config) (s : WatchdogState) (now : ℤ)
    (h : now - s.last_watchdog_time > cfg.watchdog_timeout) :
    (s.status ≠ "alert" →
      (monitorIteration cfg s now).1.status = "alert" ∧
      (monitorIteration cfg s now).1.last_alert_notification = now ∧
      (monitorIteration cfg s now).2 =
        [Notification.alertMsg (now - s.last_watchdog_time)
          (formatTimestamp s.last_watchdog_time)]) ∧
    (s.status = "alert" → now - s.last_alert_notification < cfg.alert_resend_interval →
      (monitorIteration cfg s now).1 = s ∧ (monitorIteration cfg s now).2 = []) ∧
    (s.status = "alert" → now - s.last_alert_notification ≥ cfg.alert_resend_interval →
      (monitorIteration cfg s now).1.status = s.status ∧
      (monitorIteration cfg s now).1.last_alert_notification = now ∧
      (monitorIteration cfg s now).2 =
        [Notification.repeatedAlertMsg (now - s.last_watchdog_time)
          (formatTimestamp s.last_watchdog_time)]) := by
  refine ⟨?_, ?_, ?_⟩
  · intro hst
    simp [monitorIteration, h, hst, WatchdogState.set_alert_status,
      WatchdogState.update_alert_notification]
  · intro hst hlt
    have : ¬ (now - s.last_alert_notification ≥ cfg.alert_resend_interval) := by omega
    simp [monitorIteration, h, hst, this]
  · intro hst hge
    simp [monitorIteration, h, hst, hge, WatchdogState.update_alert_notification]

/-- C3 witness (spec scenario C): status "alert", last alert notification
400s ago, resend interval 300s, timeout 60s, heartbeat 100s ago — the
iteration dispatches exactly one repeated alert and stamps
`last_alert_notification = 1000`; the same state 100s earlier (interval not
yet elapsed) dispatches nothing and changes nothing. -/
theorem monitor_iteration_alert_policy_witness :
    (monitorIteration cfg1 sScenarioC 1000).1.last_alert_notification = 1000 ∧
    (monitorIteration cfg1 sScenarioC 1000).2 =
      [Notification.repeatedAlertMsg 100 (formatTimestamp 900)] ∧
    (monitorIteration cfg1 { sScenarioC with last_alert_notification := 950 } 1000).1 =
      { sScenarioC with last_alert_notification := 950 } ∧
    (monitorIteration cfg1 { sScenarioC with last_alert_notification := 950 } 1000).2 = [] := by
  have h1 := (monitor_iteration_alert_policy cfg1 sScenarioC 1000 (by decide)).2.2
    rfl (by decide)
  have h2 := (monitor_iteration_alert_policy cfg1
    { sScenarioC with last_alert_notification := 950 } 1000 (by decide)).2.1
    rfl (by decide)
  exact ⟨h1.2.1, h1.2.2, h2.1, h2.2⟩

/-- C4 counterexample: `get_health_status` flips the status to "alert" even
from the startup phase "waiting_for_first_alert" (spec:
`waiting_for_first_heartbeat`) — with timeout 60 and last heartbeat stamp 0,
a query at time 100 flips a startup-phase state, contradicting the claimed
"and status is not a startup phase" condition of the flip. -/
theorem health_flip_startup_cex :
    sWaiting1.status = "waiting_for_first_alert" ∧
    sWaiting1.status ≠ "alert" ∧ sWaiting1.status ≠ "ok" ∧
    100 - sWaiting1.last_watchdog_time > cfg1.watchdog_timeout ∧
    (get_health_status cfg1 sWaiting1 100).1.status = "alert" := by
  decide

/-- C4 amended: the health query flips the status to "alert" (the change
being the state it persists) if and only if the time since the last
heartbeat exceeds the timeout and the status is not already "alert" — with
no startup-phase exemption; it changes nothing else, and the snapshot
carries the health flag (true exactly when the status is "ok"), the raw and
formatted last-ping timestamp, the seconds since the last ping, and the
configured timeout. -/
theorem get_health_status_spec (cfg : Config) (s : WatchdogState) (now : ℤ) :
    ((get_health_status cfg s now).1.status = "alert" ↔
      (s.status = "alert" ∨ now - s.last_watchdog_time > cfg.watchdog_timeout)) ∧
    ((get_health_status cfg s now).1.status ≠ "alert" →
      (get_health_status cfg s now).1 = s) ∧
    (get_health_status cfg s now).1.last_watchdog_time = s.last_watchdog_time ∧
    (get_health_status cfg s now).1.total_received = s.total_received ∧
    (get_health_status cfg s now).1.invalid_received = s.invalid_received ∧
    ((get_health_status cfg s now).2.is_healthy = true ↔
      (get_health_status cfg s now).1.status = "ok") ∧
    (get_health_status cfg s now).2.status = (get_health_status cfg s now).1.status ∧
    (get_health_status cfg s now).2.last_ping = s.last_watchdog_time ∧
    (get_health_status cfg s now).2.last_ping_formatted =
      formatTimestamp s.last_watchdog_time ∧
    (get_health_status cfg s now).2.time_since_last_ping = now - s.last_watchdog_time ∧
    (get_health_status cfg s now).2.timeout = cfg.watchdog_timeout := by
  by_cases hTo : now - s.last_watchdog_time > cfg.watchdog_timeout <;>
    by_cases hAl : s.status = "alert" <;>
      simp [get_health_status, WatchdogState.time_since_last_watchdog,
        WatchdogState.set_alert_status, hTo, hAl]

/-- C4 amended witness: the fresh state queried at time 0 is not flipped and
is returned unchanged. -/
theorem get_health_status_spec_witness :
    (get_health_status cfg1 WatchdogState.init 0).1 = WatchdogState.init :=
  (get_health_status_spec cfg1 WatchdogState.init 0).2.1 (by decide)

/-- C5: `FileWatchdogRepository.save` alone is crash-safe — at every crash
point of its step sequence the durable record holds either its previous
content or the complete new serialization, never a truncated one. But the
locked save path `WatchdogService._save_state_with_lock` first opens the
record itself with truncating mode to take the flock, so immediately after
that open (crash point 1 of the locked sequence) the durable record is the
empty file, and a load at that point returns the zeroed fallback instead of
the saved data: the claim is the intended behaviour and the truncating open
is the slip. -/
theorem save_crash_points (s0 : WatchdogState) (fs0 : FS) (now : ℤ) :
    (∀ k : Nat,
      (runSteps fs0 (List.take k (saveSteps s0))).main = fs0.main ∨
      (runSteps fs0 (List.take k (saveSteps s0))).main =
        some (Content.json s0.to_dict)) ∧
    (runSteps { main := some (Content.json s0.to_dict), tmp := none }
        (List.take 1 (lockedSaveSteps s0))).main = some Content.empty ∧
    (load (runSteps { main := some (Content.json s0.to_dict), tmp := none }
        (List.take 1 (lockedSaveSteps s0))) now).1 = corruptFallback := by
  refine ⟨?_, rfl, rfl⟩
  intro k
  match k with
  | 0 => exact Or.inl rfl
  | 1 => exact Or.inl rfl
  | 2 => exact Or.inl rfl
  | n + 3 =>
    right
    simp [saveSteps, runSteps, FileStep.apply, List.take]

/-- C6: saving any state and loading it back reproduces the state exactly —
all seven fields, including both timestamps, the counters, the status and
the details mapping — because `to_dict` serializes every field and
`from_dict` restores each present field over the fresh entity. -/
theorem save_load_round_trip (fs : FS) (s : WatchdogState) (now : ℤ) :
    (load (repositorySave fs s) now).1 = s := rfl

/-- C7: `load` is a total function (every failure path in the source is
caught). With no durable record it synthesizes a fresh state stamped `now`
with status "waiting_for_first_alert" (spec: `waiting_for_first_heartbeat`)
and immediately persists it, so the record then exists on disk holding that
state; with an unreadable (empty/unparsable) record it returns the
zeroed default state `WatchdogState.init` instead of raising. -/
theorem load_fresh_and_corrupt (fs : FS) (now : ℤ) :
    (fs.main = none →
      (load fs now).1.status = "waiting_for_first_alert" ∧
      (load fs now).1.last_watchdog_time = now ∧
      (load fs now).1.last_status_notification = now ∧
      (0 < now → 0 < (load fs now).1.last_watchdog_time) ∧
      (load fs now).2.main = some (Content.json ((load fs now).1.to_dict))) ∧
    (fs.main = some Content.empty →
      (load fs now).1 = WatchdogState.init ∧ (load fs now).2 = fs) := by
  obtain ⟨main, tmp⟩ := fs
  constructor
  · rintro rfl
    refine ⟨rfl, rfl, rfl, ?_, rfl⟩
    intro h
    simpa [load] using h
  · rintro rfl
    exact ⟨rfl, rfl⟩

/-- C7 witness: loading an empty directory at time 5 yields the
waiting-for-first-heartbeat state stamped 5 with the record now on disk, and
loading a truncated record yields the default state. -/
theorem load_fresh_and_corrupt_witness :
    (load { main := none, tmp := none } 5).1.status = "waiting_for_first_alert" ∧
    (load { main := none, tmp := none } 5).1.last_watchdog_time = 5 ∧
    0 < (load { main := none, tmp := none } 5).1.last_watchdog_time ∧
    (load { main := none, tmp := none } 5).2.main =
      some (Content.json ((load { main := none, tmp := none } 5).1.to_dict)) ∧
    (load { main := some Content.empty, tmp := none } 5).1 = WatchdogState.init := by
  have h1 := (load_fresh_and_corrupt { main := none, tmp := none } 5).1 rfl
  have h2 := (load_fresh_and_corrupt { main := some Content.empty, tmp := none } 5).2 rfl
  exact ⟨h1.1, h1.2.1, h1.2.2.2.1 (by decide), h1.2.2.2.2, h2.1⟩

/-- The accumulator of the `notify_all` loop: once some provider has
succeeded the flag stays set; a raising provider leaves it unchanged. -/
theorem notify_foldl (ps : List SendOutcome) (acc : Bool) :
    ps.foldl
      (fun success p =>
        match p with
        | SendOutcome.ok b => success || b
        | SendOutcome.raises => success) acc =
    (acc || ps.any fun p => p == SendOutcome.ok true) := by
  have hb : (SendOutcome.ok false == SendOutcome.ok true) = false := by decide
  have hr : (SendOutcome.raises == SendOutcome.ok true) = false := by decide
  induction ps generalizing acc with
  | nil => simp
  | cons hd tl ih =>
    cases hd with
    | ok b => cases b <;> simp [List.foldl_cons, ih, Bool.or_assoc, hb]
    | raises => simp [List.foldl_cons, ih, hr]

/-- C8: `notify_all` is a total function (each provider send is wrapped in
try/except, so neither an exception nor a non-success result stops the loop
or escapes to the caller); it returns true iff at least one provider send
reported success, and with zero providers it returns false rather than
raising. -/
theorem notify_all_success_iff (providers : List SendOutcome) :
    (notify_all providers = true ↔ SendOutcome.ok true ∈ providers) ∧
    notify_all [] = false := by
  refine ⟨?_, rfl⟩
  unfold notify_all
  cases providers with
  | nil => simp
  | cons hd tl =>
    rw [if_neg (by simp), notify_foldl]
    simp only [Bool.false_or, List.any_eq_true, beq_iff_eq]
    constructor
    · rintro ⟨x, hx, rfl⟩
      exact hx
    · intro hx
      exact ⟨_, hx, rfl⟩

/-- C8 witness: a raising channel followed by a failing and a succeeding one
still yields overall success; channels that all fail or raise yield failure,
as does an empty channel list. -/
theorem notify_all_success_iff_witness :
    notify_all [SendOutcome.raises, SendOutcome.ok false, SendOutcome.ok true] = true ∧
    notify_all [SendOutcome.raises, SendOutcome.ok false] = false ∧
    notify_all [] = false := by
  refine ⟨(notify_all_success_iff _).1.mpr (by decide), ?_,
    (notify_all_success_iff []).2⟩
  have h : notify_all [SendOutcome.raises, SendOutcome.ok false] ≠ true := fun ht =>
    absurd ((notify_all_success_iff _).1.mp ht) (by decide)
  exact Bool.not_eq_true _ ▸ h

/-- One operation moves the counters by one of three deltas: none (health
query, monitor iteration, stamps, early rejection), total + 1 (accepted
submission), or total + 2 and invalid + 1 (mapping-shaped invalid
submission). -/
theorem op_counter_step (cfg : Config) (s : WatchdogState) (op : Op) :
    s.total_received ≤ (op.apply cfg s).total_received ∧
    s.invalid_received ≤ (op.apply cfg s).invalid_received ∧
    (s.invalid_received ≤ s.total_received →
      (op.apply cfg s).invalid_received ≤ (op.apply cfg s).total_received) := by
  cases op with
  | processAlert now p =>
    cases p with
    | null => exact ⟨le_rfl, le_rfl, fun h => h⟩
    | notDict => exact ⟨le_rfl, le_rfl, fun h => h⟩
    | dict d =>
      by_cases hv : isValidHeartbeat cfg (.dict d) = true
      · obtain ⟨h1, h2⟩ := (isValidHeartbeat_dict cfg d).mp hv
        simp only [Op.apply]
        rw [process_valid_dict cfg s now d h1 h2]
        exact ⟨Nat.le_succ _, le_rfl, fun h => le_trans h (Nat.le_succ _)⟩
      · simp only [Op.apply]
        rw [process_invalid_dict cfg s now d (Bool.not_eq_true _ ▸ hv)]
        exact ⟨Nat.le_add_right _ 2, Nat.le_succ _,
          fun h => Nat.succ_le_succ (le_trans h (Nat.le_succ _))⟩
  | healthQuery now =>
    simp only [Op.apply, get_health_status]
    split <;> exact ⟨le_rfl, le_rfl, fun h => h⟩
  | monitorIter now =>
    simp only [Op.apply, monitorIteration]
    split
    · split
      · exact ⟨le_rfl, le_rfl, fun h => h⟩
      · split
        · exact ⟨le_rfl, le_rfl, fun h => h⟩
        · exact ⟨le_rfl, le_rfl, fun h => h⟩
    · split
      · exact ⟨le_rfl, le_rfl, fun h => h⟩
      · exact ⟨le_rfl, le_rfl, fun h => h⟩
  | stampStatus now => exact ⟨le_rfl, le_rfl, fun h => h⟩
  | stampAlert now => exact ⟨le_rfl, le_rfl, fun h => h⟩

/-- The counter invariant is preserved along any operation sequence. -/
theorem runOps_invariant (cfg : Config) :
    ∀ (ops : List Op) (s : WatchdogState),
      s.invalid_received ≤ s.total_received →
      (runOps cfg s ops).invalid_received ≤ (runOps cfg s ops).total_received
  | [], _, h => h
  | op :: rest, s, h =>
    runOps_invariant cfg rest (op.apply cfg s) ((op_counter_step cfg s op).2.2 h)

/-- C9: every operation on the watchdog state — processing a valid or
invalid submission, the health query, a monitor iteration, or a
notification stamp — never decreases `total_received` or
`invalid_received` and preserves `invalid_received ≤ total_received`; hence
the invariant holds after any operation sequence from the initial state,
where both counters are 0. -/
theorem counters_monotone_and_invariant (cfg : Config) :
    (∀ (s : WatchdogState) (op : Op),
      s.total_received ≤ (op.apply cfg s).total_received ∧
      s.invalid_received ≤ (op.apply cfg s).invalid_received ∧
      (s.invalid_received ≤ s.total_received →
        (op.apply cfg s).invalid_received ≤ (op.apply cfg s).total_received)) ∧
    WatchdogState.init.invalid_received = 0 ∧
    WatchdogState.init.total_received = 0 ∧
    (∀ ops : List Op,
      (runOps cfg WatchdogState.init ops).invalid_received ≤
        (runOps cfg WatchdogState.init ops).total_received) :=
  ⟨fun s op => op_counter_step cfg s op, rfl, rfl,
    fun ops => runOps_invariant cfg ops WatchdogState.init (Nat.le_refl 0)⟩

/-- C9 witness: an invalid submission, a health query, a monitor iteration
and a valid submission applied in sequence from the fresh state keep
`invalid_received ≤ total_received`, and the single invalid step respects
both monotonicity bounds. -/
theorem counters_monotone_and_invariant_witness :
    WatchdogState.init.total_received ≤
      ((Op.processAlert 10 pEmptyBatch1).apply cfg1 WatchdogState.init).total_received ∧
    ((Op.processAlert 10 pEmptyBatch1).apply cfg1 WatchdogState.init).invalid_received ≤
      ((Op.processAlert 10 pEmptyBatch1).apply cfg1 WatchdogState.init).total_received ∧
    (runOps cfg1 WatchdogState.init
      [Op.processAlert 10 pEmptyBatch1, Op.healthQuery 100,
        Op.monitorIter 200, Op.processAlert 300 pValid1]).invalid_received ≤
      (runOps cfg1 WatchdogState.init
        [Op.processAlert 10 pEmptyBatch1, Op.healthQuery 100,
          Op.monitorIter 200, Op.processAlert 300 pValid1]).total_received :=
  ⟨((counters_monotone_and_invariant cfg1).1 WatchdogState.init
      (Op.processAlert 10 pEmptyBatch1)).1,
    ((counters_monotone_and_invariant cfg1).1 WatchdogState.init
      (Op.processAlert 10 pEmptyBatch1)).2.2 (by decide),
    (counters_monotone_and_invariant cfg1).2.2.2
      [Op.processAlert 10 pEmptyBatch1, Op.healthQuery 100,
        Op.monitorIter 200, Op.processAlert 300 pValid1]⟩

end Watchdog
